import Mathlib

/-!
Shallow embedding of the kraken-exporter core (src/state.rs): the exchange
data model, the HTTP status dispatch of `State::get`, and the generation
cycle `State::generate` (pair discovery, ticker query construction, and the
gauge-publishing loop).  Rust `HashMap`s are modelled as association lists
(lookup returns the first matching key; iteration follows list order), panics
are modelled by a `Bool` completion flag paired with the samples emitted
before the panic, and `f64` values are modelled as exact rationals.
-/

/-- Modelled from the spec: `error.rs` is not included under `src/`; spec §7
lists the error kinds `NotFound`, `Forbidden`, `Unauthorized`, `Transport`,
`Decode`, `Unknown`. -/
inductive RestError where
  | NotFound
  | Forbidden
  | Unauthorized
  | Transport
  | Decode
  | Unknown
deriving DecidableEq, Repr

/-- `struct Asset` from src/state.rs. -/
structure Asset where
  aclass : String
  altname : String
  decimals : Nat
  display_decimals : Nat
deriving DecidableEq, Repr

/-- `struct Assets` (upstream envelope); `HashMap<String, Asset>` as an
association list. -/
structure Assets where
  error : List String
  result : List (String × Asset)
deriving DecidableEq, Repr

/-- `struct AssetPair` from src/state.rs. -/
structure AssetPair where
  wsname : String
  base : String
  quote : String
deriving DecidableEq, Repr

/-- `struct AssetPairs` (upstream envelope). -/
structure AssetPairs where
  error : List String
  result : List (String × AssetPair)
deriving DecidableEq, Repr

/-- `struct Info` (one ticker entry) from src/state.rs. -/
structure Info where
  c : List String
  v : List String
  p : List String
  t : List Nat
deriving DecidableEq, Repr

/-- `struct Tickers` (upstream envelope). -/
structure Tickers where
  error : List String
  result : List (String × Info)
deriving DecidableEq, Repr

/-- `const REFERENCE_CURRENCIES` from src/state.rs. -/
def REFERENCE_CURRENCIES : List String :=
  ["AUD", "CAD", "BTC", "ETH", "EUR", "GBP", "JPY", "USD", "XBT", "USDT", "USDC"]

/-- `const TICKER` from src/state.rs. -/
def TICKER : String := "https://api.kraken.com/0/public/Ticker"

/-- The status dispatch of `State::get` (src/state.rs, the `match` on
`response.status().as_u16()`): 404, 403, 401 map to typed errors, 200 returns
the buffered body, every other status maps to `Unknown`. -/
def State.get (status : Nat) (body : String) : Except RestError String :=
  if status = 404 then .error .NotFound
  else if status = 403 then .error .Forbidden
  else if status = 401 then .error .Unauthorized
  else if status = 200 then .ok body
  else .error .Unknown

/-- Rust `str::split('/')` on the character list of a string: separators
delimit (possibly empty) fields; the result is never empty. -/
def splitChar (sep : Char) : List Char → List (List Char)
  | [] => [[]]
  | ch :: cs =>
    if ch = sep then [] :: splitChar sep cs
    else
      match splitChar sep cs with
      | [] => [[ch]]
      | h :: rest => (ch :: h) :: rest

/-- `wsname.split('/').collect::<Vec<&str>>()` from `State::generate`. -/
def splitSlash (s : String) : List String :=
  (splitChar '/' s.data).map String.mk

/-- Value of a digit list read in base 10. -/
def digitsToNat (l : List Char) : Nat :=
  l.foldl (fun n ch => 10 * n + (ch.toNat - 48)) 0

/-- The exponent suffix `('e' | 'E') Sign? Digits` of a float literal; it
must consume the whole remainder of the string. -/
def parseExp : List Char → Option Int
  | [] => none
  | ch :: rest =>
    if ch = 'e' ∨ ch = 'E' then
      let signed : Int × List Char :=
        match rest with
        | '-' :: more => (-1, more)
        | '+' :: more => (1, more)
        | _ => (1, rest)
      let digits := signed.2.takeWhile Char.isDigit
      let remaining := signed.2.dropWhile Char.isDigit
      if digits.isEmpty then none
      else if remaining.isEmpty then some (signed.1 * (digitsToNat digits : Int))
      else none
    else none

/-- The exact rational denoted by the decimal literal
`sign (intPart).(frac) × 10^e`. -/
def mkDecimal (sign : Int) (intPart frac : List Char) (e : Int) : ℚ :=
  let num : Int :=
    sign * ((digitsToNat intPart * 10 ^ frac.length + digitsToNat frac : Nat) : Int)
  if 0 ≤ e then
    Rat.divInt (num * ((10 ^ e.toNat : Nat) : Int)) ((10 ^ frac.length : Nat) : Int)
  else
    Rat.divInt num (((10 ^ frac.length : Nat) : Int) * ((10 ^ (-e).toNat : Nat) : Int))

/-- Model of Rust `str::parse::<f64>`, following the documented `from_str`
grammar: `Sign? ('inf' | 'infinity' | 'nan' | Number)` with the keywords
case-insensitive, `Number ::= Digits '.'? Digits? Exp? | '.' Digits Exp?`,
`Exp ::= ('e' | 'E') Sign? Digits`.  A finite literal maps to the exact
rational it denotes (binary rounding of `f64` is abstracted away); the
non-finite keywords parse successfully and are modelled by the rational 0,
standing in for values outside ℚ — no claim depends on their numeric value,
only on the success of the parse.  Any string outside the grammar fails. -/
def parseF64 (s : String) : Option ℚ :=
  let cs := s.data
  let signed : Int × List Char :=
    match cs with
    | '-' :: more => (-1, more)
    | '+' :: more => (1, more)
    | _ => (1, cs)
  let sign := signed.1
  let body := signed.2
  let lower := body.map Char.toLower
  if lower = "inf".data ∨ lower = "infinity".data ∨ lower = "nan".data then
    some 0
  else
    let intPart := body.takeWhile Char.isDigit
    let rest1 := body.dropWhile Char.isDigit
    match rest1 with
    | [] => if intPart.isEmpty then none else some (mkDecimal sign intPart [] 0)
    | '.' :: rest2 =>
      let frac := rest2.takeWhile Char.isDigit
      let rest3 := rest2.dropWhile Char.isDigit
      if intPart.isEmpty && frac.isEmpty then none
      else
        match rest3 with
        | [] => some (mkDecimal sign intPart frac 0)
        | _ =>
          match parseExp rest3 with
          | some e => some (mkDecimal sign intPart frac e)
          | none => none
    | _ =>
      if intPart.isEmpty then none
      else
        match parseExp rest1 with
        | some e => some (mkDecimal sign intPart [] e)
        | none => none

/-- One sample handed to the `gauge!` macro: metric name, value, labels. -/
structure Sample where
  name : String
  value : ℚ
  labels : List (String × String)
deriving DecidableEq, Repr

/-- The three candidate pair codes `AR`, `XAXR`, `XAZR` formed for an asset
altname and a reference currency in `State::generate`. -/
def candidatePairs (altname r : String) : List String :=
  [altname ++ r, "X" ++ altname ++ "X" ++ r, "X" ++ altname ++ "Z" ++ r]

/-- The discovery double loop of `State::generate`: for each asset and each
reference currency, push every candidate pair code that is a key of
`asset_pairs.result` onto `vec`, in candidate order. -/
def buildQuery (assets : Assets) (asset_pairs : AssetPairs) : List String :=
  assets.result.flatMap (fun a =>
    REFERENCE_CURRENCIES.flatMap (fun r =>
      (candidatePairs a.2.altname r).filter
        (fun pr => (List.lookup pr asset_pairs.result).isSome)))

/-- The five `gauge!` lines of the publishing loop of `State::generate`, in
program order, each paired with its value computation: the slice index and the
`parse::<f64>()` (or the `u32 → f64` cast for `t[1]`); `none` marks a
computation whose `unwrap` or index panics. -/
def gaugeSources (value : Info) : List (String × Option ℚ) :=
  [("exchange_rate", value.c[0]?.bind parseF64),
   ("exchange_volume_daily", value.v[1]?.bind parseF64),
   ("exchange_rate_average", value.p[0]?.bind parseF64),
   ("exchange_rate_average_last_day", value.p[1]?.bind parseF64),
   ("exchange_trades_daily", (value.t[1]? : Option Nat).map (fun t1 => (t1 : ℚ)))]

/-- Executes the `gauge!` lines in order: each gauge is written as soon as its
value is computed, and a `none` (a panicking `unwrap` or index) stops the
entry, keeping the gauges already written.  The `Bool` is `true` iff no line
panicked. -/
def emitGauges (labels : List (String × String)) :
    List (String × Option ℚ) → List Sample × Bool
  | [] => ([], true)
  | (_, none) :: _ => ([], false)
  | (nm, some q) :: more =>
    let next := emitGauges labels more
    (⟨nm, q, labels⟩ :: next.1, next.2)

/-- The body of the publishing loop of `State::generate` for one ticker entry.
Returns the samples written before completion or panic, and `true` iff no
partial operation (`unwrap`, slice index) panicked.  The panic points, in
program order: the `asset_pairs.result.get(asset).unwrap()`, the
`wsname_split[1]` index inside the label array, then the five gauge lines
(`gaugeSources`/`emitGauges`). -/
def publishEntry (apResult : List (String × AssetPair)) (asset : String)
    (value : Info) : List Sample × Bool :=
  match List.lookup asset apResult with
  | none => ([], false)
  | some asset_pair =>
    match (splitSlash asset_pair.wsname)[0]?, (splitSlash asset_pair.wsname)[1]? with
    | some w0, some w1 =>
      emitGauges [("currency", w0), ("reference_currency", w1),
                  ("pair", asset_pair.wsname)] (gaugeSources value)
    | _, _ => ([], false)

/-- The publishing loop of `State::generate` over `tickers.result`: entries
are processed in iteration order; a panic stops the loop, keeping the samples
already written. -/
def publishLoop (apResult : List (String × AssetPair)) :
    List (String × Info) → List Sample × Bool
  | [] => ([], true)
  | (asset, value) :: more =>
    let step := publishEntry apResult asset value
    if step.2 then
      let next := publishLoop apResult more
      (step.1 ++ next.1, next.2)
    else (step.1, false)

/-- Outcome of one generation cycle: clean completion, an error returned to
the caller, or a panic inside the publishing loop. -/
inductive GenResult where
  | ok
  | err (e : RestError)
  | panicked
deriving DecidableEq, Repr

/-- `State::generate`, with each fetch-and-decode step supplied as an
`Except` input (the `?` operator on `get` and `serde_json::from_slice`
propagates either failure): fetch AssetPairs, fetch Assets, build the query
list, fetch the ticker endpoint for the comma-joined query, then run the
publishing loop.  Returns the gauge samples written and the cycle outcome. -/
def generate (apR : Except RestError AssetPairs)
    (assetsR : Except RestError Assets)
    (tick : String → Except RestError Tickers) : List Sample × GenResult :=
  match apR with
  | .error e => ([], .err e)
  | .ok asset_pairs =>
    match assetsR with
    | .error e => ([], .err e)
    | .ok assets =>
      let assets_query := String.intercalate "," (buildQuery assets asset_pairs)
      let url := TICKER ++ "?pair=" ++ assets_query
      match tick url with
      | .error e => ([], .err e)
      | .ok tickers =>
        let outcome := publishLoop asset_pairs.result tickers.result
        (outcome.1, if outcome.2 then .ok else .panicked)

/-- The single-pair fixture's AssetPair: `{wsname: "XBT/USD", base: "XXBT",
quote: "ZUSD"}`. -/
def fixAssetPair : AssetPair := ⟨"XBT/USD", "XXBT", "ZUSD"⟩

/-- The single-pair fixture's AssetPairs response. -/
def fixAP : AssetPairs := ⟨[], [("XXBTZUSD", fixAssetPair)]⟩

/-- The single-pair fixture's ticker entry:
`{c:["30000.1"], v:["1.0","2.0"], p:["29500","29400"], t:[10,20]}`. -/
def fixInfo : Info := ⟨["30000.1"], ["1.0", "2.0"], ["29500", "29400"], [10, 20]⟩

/-- The single-pair fixture's ticker response. -/
def fixTickers : Tickers := ⟨[], [("XXBTZUSD", fixInfo)]⟩

/-- An Assets response whose sole asset has altname `XBT`, so that discovery
finds the candidate `XXBTZUSD` in the fixture AssetPairs. -/
def fixAssets : Assets := ⟨[], [("XXBT", ⟨"currency", "XBT", 10, 5⟩)]⟩

/-- The label set the code resolves for the fixture pair: both currency labels
come from splitting `wsname` on `/`, the pair label is `wsname` itself. -/
def fixLabels : List (String × String) :=
  [("currency", "XBT"), ("reference_currency", "USD"), ("pair", "XBT/USD")]

/-- The five samples the publishing loop emits for the fixture entry. -/
def fixSamples : List Sample :=
  [⟨"exchange_rate", Rat.divInt 300001 10, fixLabels⟩,
   ⟨"exchange_volume_daily", 2, fixLabels⟩,
   ⟨"exchange_rate_average", 29500, fixLabels⟩,
   ⟨"exchange_rate_average_last_day", 29400, fixLabels⟩,
   ⟨"exchange_trades_daily", 20, fixLabels⟩]

/-- A ticker endpoint that answers only the query URL discovery builds for
the fixture (`pair=XXBTZUSD`). -/
def fixTick : String → Except RestError Tickers := fun url =>
  if url = "https://api.kraken.com/0/public/Ticker?pair=XXBTZUSD" then
    .ok fixTickers
  else .error .Unknown

/-- One full fixture cycle. -/
def fixGen : List Sample × GenResult := generate (.ok fixAP) (.ok fixAssets) fixTick

/-- Ticker entry whose `c[0]` string does not parse as a float. -/
def badInfo : Info := ⟨["NaNish"], ["1.0", "2.0"], ["29500", "29400"], [10, 20]⟩

/-- A cycle whose ticker response holds only the entry with the bad `c[0]`. -/
def badGen : List Sample × GenResult :=
  generate (.ok fixAP) (.ok fixAssets) (fun _ => .ok ⟨[], [("XXBTZUSD", badInfo)]⟩)

/-- Ticker entry whose `p[0]` string does not parse as a float while the
gauges before it (`c[0]`, `v[1]`) do. -/
def badPInfo : Info := ⟨["30000.1"], ["1.0", "2.0"], ["bogus", "29400"], [10, 20]⟩

/-- Decodable ticker entry whose `v` sequence has length 1. -/
def shortInfo : Info := ⟨["30000.1"], ["1.0"], ["29500", "29400"], [10, 20]⟩

/-- Ticker response whose first entry names a pair code absent from the
fixture AssetPairs, followed by a well-formed entry. -/
def orphanTickers : Tickers := ⟨[], [("ZZZZ", fixInfo), ("XXBTZUSD", fixInfo)]⟩

/-- The fixture AssetPairs envelope with a non-empty error array. -/
def errAP : AssetPairs := ⟨["EGeneral:Invalid arguments"], fixAP.result⟩

/-- The fixture Assets envelope with a non-empty error array. -/
def errAssets : Assets := ⟨["EService:Busy"], fixAssets.result⟩

/-- The fixture ticker envelope with a non-empty error array. -/
def errTickers : Tickers := ⟨["EService:Unavailable"], fixTickers.result⟩

/-- Two distinct asset codes sharing the altname `XBT`. -/
def dupAssets : Assets :=
  ⟨[], [("A1", ⟨"currency", "XBT", 8, 4⟩), ("A2", ⟨"currency", "XBT", 8, 4⟩)]⟩

/-- AssetPairs carrying the single key `XBTUSD`. -/
def dupAP : AssetPairs := ⟨[], [("XBTUSD", ⟨"XBT/USD", "XXBT", "ZUSD"⟩)]⟩

/-- An AssetPairs entry whose wsname starts with the separator, so the first
split segment is empty. -/
def slashAP : AssetPairs := ⟨[], [("PAIRX", ⟨"/USD", "B", "Q"⟩)]⟩

/-- Ticker response for the `slashAP` pair code. -/
def slashTickers : Tickers := ⟨[], [("PAIRX", fixInfo)]⟩

theorem lookup_mem {β : Type} {l : List (String × β)} {k : String} {v : β}
    (h : List.lookup k l = some v) : (k, v) ∈ l := by
  induction l with
  | nil => simp [List.lookup] at h
  | cons hd tl ih =>
    obtain ⟨k', v'⟩ := hd
    by_cases hk : k = k'
    · subst hk
      simp [List.lookup] at h
      simp [h]
    · have hb : (k == k') = false := by simp [hk]
      simp [List.lookup, hb] at h
      exact List.mem_cons_of_mem _ (ih h)

theorem splitChar_ne_nil (sep : Char) (l : List Char) : splitChar sep l ≠ [] := by
  cases l with
  | nil => simp [splitChar]
  | cons ch cs =>
    simp only [splitChar]
    split
    · simp
    · split <;> simp

theorem two_le_splitChar_length {sep : Char} {l : List Char} (h : sep ∈ l) :
    2 ≤ (splitChar sep l).length := by
  induction l with
  | nil => simp at h
  | cons ch cs ih =>
    simp only [splitChar]
    by_cases hc : ch = sep
    · rw [if_pos hc]
      have hne := splitChar_ne_nil sep cs
      cases hcs : splitChar sep cs with
      | nil => exact absurd hcs hne
      | cons a b => simp
    · rw [if_neg hc]
      have hmem : sep ∈ cs := by
        rcases List.mem_cons.mp h with h1 | h1
        · exact absurd h1.symm hc
        · exact h1
      have h2 := ih hmem
      cases hcs : splitChar sep cs with
      | nil => exact absurd hcs (splitChar_ne_nil sep cs)
      | cons a b =>
        rw [hcs] at h2
        simp at h2 ⊢
        omega

theorem getElem01 {α : Type} {l : List α} {a b : α}
    (h0 : l[0]? = some a) (h1 : l[1]? = some b) : ∃ tl, l = a :: b :: tl := by
  cases l with
  | nil => simp at h0
  | cons x xs =>
    cases xs with
    | nil => simp at h1
    | cons y ys =>
      simp at h0 h1
      exact ⟨ys, by rw [h0, h1]⟩

theorem bind_parse_some {o : Option String} (h : (o.bind parseF64).isSome) :
    ∃ s q, o = some s ∧ parseF64 s = some q := by
  cases o with
  | none => simp at h
  | some s =>
    cases hq : parseF64 s with
    | none => simp [Option.bind, hq] at h
    | some q => exact ⟨s, q, rfl, hq⟩

theorem publishLoop_append (ap : List (String × AssetPair))
    (xs ys : List (String × Info)) :
    publishLoop ap (xs ++ ys) =
      if (publishLoop ap xs).2 then
        ((publishLoop ap xs).1 ++ (publishLoop ap ys).1, (publishLoop ap ys).2)
      else publishLoop ap xs := by
  induction xs with
  | nil => simp [publishLoop]
  | cons hd tl ih =>
    obtain ⟨a, i⟩ := hd
    simp only [List.cons_append, publishLoop, List.append_eq]
    rw [ih]
    by_cases hstep : (publishEntry ap a i).2
    · simp only [hstep, if_true]
      by_cases h2 : (publishLoop ap tl).2
      · simp [h2, List.append_assoc]
      · simp [h2]
    · simp [hstep]

theorem publishLoop_mem {ap : List (String × AssetPair)}
    {l : List (String × Info)} {s : Sample}
    (hs : s ∈ (publishLoop ap l).1) :
    ∃ a i, (a, i) ∈ l ∧ s ∈ (publishEntry ap a i).1 := by
  induction l with
  | nil => simp [publishLoop] at hs
  | cons hd tl ih =>
    obtain ⟨a, i⟩ := hd
    simp only [publishLoop] at hs
    by_cases hstep : (publishEntry ap a i).2
    · simp only [hstep, if_true] at hs
      rcases List.mem_append.mp hs with h | h
      · exact ⟨a, i, List.mem_cons_self _ _, h⟩
      · obtain ⟨a', i', hmem, hin⟩ := ih h
        exact ⟨a', i', List.mem_cons_of_mem _ hmem, hin⟩
    · simp only [hstep, if_false] at hs
      exact ⟨a, i, List.mem_cons_self _ _, hs⟩

theorem emitGauges_labels {labels : List (String × String)}
    {gs : List (String × Option ℚ)} {s : Sample}
    (hs : s ∈ (emitGauges labels gs).1) : s.labels = labels := by
  induction gs with
  | nil => simp [emitGauges] at hs
  | cons hd more ih =>
    obtain ⟨nm, oq⟩ := hd
    cases oq with
    | none => simp [emitGauges] at hs
    | some q =>
      simp only [emitGauges, List.mem_cons] at hs
      rcases hs with rfl | hs
      · rfl
      · exact ih hs

theorem emitGauges_all_some {labels : List (String × String)}
    {gs : List (String × Option ℚ)}
    (h : ∀ pr ∈ gs, (Prod.snd pr).isSome) :
    (emitGauges labels gs).2 = true ∧
      (emitGauges labels gs).1.length = gs.length := by
  induction gs with
  | nil => simp [emitGauges]
  | cons hd more ih =>
    obtain ⟨nm, oq⟩ := hd
    cases oq with
    | none =>
      have := h (nm, none) (List.mem_cons_self _ _)
      simp at this
    | some q =>
      have ⟨h1, h2⟩ := ih (fun pr hpr => h pr (List.mem_cons_of_mem _ hpr))
      simp [emitGauges, h1, h2]

theorem emitGauges_stops (labels : List (String × String)) (nm : String)
    (pre post : List (String × Option ℚ))
    (hpre : ∀ pr ∈ pre, (Prod.snd pr).isSome) :
    emitGauges labels (pre ++ (nm, none) :: post) =
      ((emitGauges labels pre).1, false) := by
  induction pre with
  | nil => simp [emitGauges]
  | cons hd tl ih =>
    obtain ⟨n, oq⟩ := hd
    cases oq with
    | none =>
      have := hpre (n, none) (List.mem_cons_self _ _)
      simp at this
    | some q =>
      have ih2 := ih (fun pr hpr => hpre pr (List.mem_cons_of_mem _ hpr))
      simp [emitGauges, ih2]

theorem publishEntry_labels {apResult : List (String × AssetPair)}
    {asset : String} {value : Info} {s : Sample}
    (hs : s ∈ (publishEntry apResult asset value).1) :
    ∃ ap w0 w1 tl, List.lookup asset apResult = some ap ∧
      splitSlash ap.wsname = w0 :: w1 :: tl ∧
      s.labels = [("currency", w0), ("reference_currency", w1),
                  ("pair", ap.wsname)] := by
  unfold publishEntry at hs
  split at hs
  · simp at hs
  · rename_i ap hap
    split at hs
    · rename_i w0 w1 h0 h1
      obtain ⟨tl, htl⟩ := getElem01 h0 h1
      exact ⟨ap, w0, w1, tl, hap, htl, emitGauges_labels hs⟩
    · simp at hs

/-- C1: refuted at the single-pair fixture — the publishing loop writes five
gauges, not the seven of the claim: there is no `exchange_volume` (v[0]), no
`exchange_trades` (t[0]), and the v[1]/t[1] gauges are named
`exchange_volume_daily`/`exchange_trades_daily`, not `..._last_day`. -/
theorem C1_counterexample :
    ((publishLoop fixAP.result fixTickers.result).1.map Sample.name) =
      ["exchange_rate", "exchange_volume_daily", "exchange_rate_average",
       "exchange_rate_average_last_day", "exchange_trades_daily"] ∧
    "exchange_volume" ∉
      ((publishLoop fixAP.result fixTickers.result).1.map Sample.name) ∧
    "exchange_volume_last_day" ∉
      ((publishLoop fixAP.result fixTickers.result).1.map Sample.name) ∧
    "exchange_trades" ∉
      ((publishLoop fixAP.result fixTickers.result).1.map Sample.name) ∧
    "exchange_trades_last_day" ∉
      ((publishLoop fixAP.result fixTickers.result).1.map Sample.name) := by
  decide

/-- C1 (amended): for every ticker entry the loop publishes fully, exactly
five gauges are written, each from its designated field: `exchange_rate` from
c[0], `exchange_volume_daily` from v[1], `exchange_rate_average` from p[0],
`exchange_rate_average_last_day` from p[1], `exchange_trades_daily` from
t[1]. -/
theorem C1_gauge_set (apResult : List (String × AssetPair)) (asset : String)
    (value : Info) (ap : AssetPair) (w0 w1 : String)
    (rate vol avg avgLast : ℚ) (t1 : Nat)
    (hap : List.lookup asset apResult = some ap)
    (h0 : (splitSlash ap.wsname)[0]? = some w0)
    (h1 : (splitSlash ap.wsname)[1]? = some w1)
    (hc : value.c[0]?.bind parseF64 = some rate)
    (hv : value.v[1]?.bind parseF64 = some vol)
    (hp0 : value.p[0]?.bind parseF64 = some avg)
    (hp1 : value.p[1]?.bind parseF64 = some avgLast)
    (ht : (value.t[1]? : Option Nat) = some t1) :
    publishEntry apResult asset value =
      ([⟨"exchange_rate", rate,
          [("currency", w0), ("reference_currency", w1), ("pair", ap.wsname)]⟩,
        ⟨"exchange_volume_daily", vol,
          [("currency", w0), ("reference_currency", w1), ("pair", ap.wsname)]⟩,
        ⟨"exchange_rate_average", avg,
          [("currency", w0), ("reference_currency", w1), ("pair", ap.wsname)]⟩,
        ⟨"exchange_rate_average_last_day", avgLast,
          [("currency", w0), ("reference_currency", w1), ("pair", ap.wsname)]⟩,
        ⟨"exchange_trades_daily", (t1 : ℚ),
          [("currency", w0), ("reference_currency", w1), ("pair", ap.wsname)]⟩],
        true) := by
  simp only [publishEntry, hap, h0, h1, gaugeSources, hc, hv, hp0, hp1, ht,
    Option.map_some, emitGauges]

/-- C1 witness: the amended gauge set at the single-pair fixture. -/
theorem C1_gauge_set_witness :
    publishEntry fixAP.result "XXBTZUSD" fixInfo = (fixSamples, true) := by
  rw [C1_gauge_set fixAP.result "XXBTZUSD" fixInfo fixAssetPair "XBT" "USD"
    (Rat.divInt 300001 10) 2 29500 29400 20
    (by decide) (by decide) (by decide) (by decide) (by decide) (by decide)
    (by decide) (by decide)]
  decide

/-- C2: refuted at the single-pair fixture — the cycle emits `exchange_rate`
30000.1 with pair "XBT/USD" and reference_currency "USD", but the currency
label is "XBT" (the first `wsname` segment), not the base field "XXBT"; no
emitted sample carries a currency label "XXBT". -/
theorem C2_counterexample :
    fixGen.2 = GenResult.ok ∧
    fixGen.1.head? =
      some ⟨"exchange_rate", Rat.divInt 300001 10, fixLabels⟩ ∧
    (∀ s ∈ fixGen.1, ("currency", "XXBT") ∉ s.labels) := by
  decide

/-- C2 (amended): at the single-pair fixture the cycle succeeds and emits
`exchange_rate` with value 30000.1 (= 300001/10) under the labels
currency = "XBT" (the first `wsname` segment), reference_currency = "USD",
pair = "XBT/USD". -/
theorem C2_single_pair :
    fixGen.2 = GenResult.ok ∧
    (⟨"exchange_rate", Rat.divInt 300001 10, fixLabels⟩ : Sample) ∈ fixGen.1 ∧
    Rat.divInt 300001 10 = (300001 : ℚ) / 10 := by
  refine ⟨by decide, by decide, by norm_num [Rat.divInt_eq_div]⟩

/-- C3: refuted — a non-parsing `c[0]` makes the `unwrap` panic: the entry
emits none of its other gauges and the cycle ends in a panic instead of
completing successfully. -/
theorem C3_counterexample :
    publishEntry fixAP.result "XXBTZUSD" badInfo = ([], false) ∧
    badGen = ([], GenResult.panicked) := by
  decide

/-- C3 (amended): whichever gauge line is the first whose accessed decimal
string does not parse (any of the c[0]/v[1]/p[0]/p[1] positions), the
`unwrap` panics there: the gauges of the entry written before that line are
kept, the rest of the entry and all later entries are not published, and the
cycle does not complete. -/
theorem C3_parse_panic (apResult : List (String × AssetPair)) (asset : String)
    (value : Info) (ap : AssetPair) (w0 w1 : String) (nm : String)
    (pre post : List (String × Option ℚ)) (rest : List (String × Info))
    (hap : List.lookup asset apResult = some ap)
    (h0 : (splitSlash ap.wsname)[0]? = some w0)
    (h1 : (splitSlash ap.wsname)[1]? = some w1)
    (hsrc : gaugeSources value = pre ++ (nm, none) :: post)
    (hpre : ∀ pr ∈ pre, (Prod.snd pr).isSome) :
    publishEntry apResult asset value =
      ((emitGauges [("currency", w0), ("reference_currency", w1),
        ("pair", ap.wsname)] pre).1, false) ∧
    (publishEntry apResult asset value).1.length = pre.length ∧
    publishLoop apResult ((asset, value) :: rest) =
      ((emitGauges [("currency", w0), ("reference_currency", w1),
        ("pair", ap.wsname)] pre).1, false) := by
  have hentry : publishEntry apResult asset value =
      ((emitGauges [("currency", w0), ("reference_currency", w1),
        ("pair", ap.wsname)] pre).1, false) := by
    simp only [publishEntry, hap, h0, h1, hsrc]
    exact emitGauges_stops _ nm pre post hpre
  refine ⟨hentry, ?_, by simp [publishLoop, hentry]⟩
  rw [hentry]
  exact (emitGauges_all_some hpre).2

/-- C3 witness: the panic at a fixture whose first bad string sits at `p[0]`
— the `exchange_rate` and `exchange_volume_daily` gauges written before it
are kept, nothing after is published, and the loop stops. -/
theorem C3_parse_panic_witness :
    publishLoop fixAP.result [("XXBTZUSD", badPInfo)] =
      ([⟨"exchange_rate", Rat.divInt 300001 10, fixLabels⟩,
        ⟨"exchange_volume_daily", 2, fixLabels⟩], false) := by
  rw [(C3_parse_panic fixAP.result "XXBTZUSD" badPInfo fixAssetPair "XBT" "USD"
    "exchange_rate_average"
    [("exchange_rate", some (Rat.divInt 300001 10)),
     ("exchange_volume_daily", some 2)]
    [("exchange_rate_average_last_day", some 29400),
     ("exchange_trades_daily", some 20)]
    [] (by decide) (by decide) (by decide) (by decide) (by decide)).2.2]
  decide

/-- C4: refuted — a ticker entry whose pair code is missing from AssetPairs
makes the `unwrap` panic: the remaining entries are not published and the
cycle ends in a panic instead of succeeding. -/
theorem C4_counterexample :
    publishLoop fixAP.result orphanTickers.result = ([], false) ∧
    generate (.ok fixAP) (.ok fixAssets) (fun _ => .ok orphanTickers) =
      ([], GenResult.panicked) := by
  decide

/-- C4 (amended): a ticker pair code missing from AssetPairs panics the
publishing loop at that entry: gauges from entries processed before it are
kept, entries after it are not published, and the cycle does not succeed. -/
theorem C4_missing_pair_panics (apResult : List (String × AssetPair))
    (asset : String) (value : Info) (pre rest : List (String × Info))
    (ss : List Sample)
    (hmiss : List.lookup asset apResult = none)
    (hpre : publishLoop apResult pre = (ss, true)) :
    publishLoop apResult (pre ++ (asset, value) :: rest) = (ss, false) := by
  have hentry : publishEntry apResult asset value = ([], false) := by
    simp [publishEntry, hmiss]
  have hcons : publishLoop apResult ((asset, value) :: rest) = ([], false) := by
    simp [publishLoop, hentry]
  rw [publishLoop_append, hpre, hcons]
  simp

/-- C4 witness: the fixture entry publishes, then the orphan code panics. -/
theorem C4_missing_pair_panics_witness :
    publishLoop fixAP.result ([("XXBTZUSD", fixInfo)] ++ [("ZZZZ", fixInfo)]) =
      (fixSamples, false) :=
  C4_missing_pair_panics fixAP.result "ZZZZ" fixInfo [("XXBTZUSD", fixInfo)] []
    fixSamples (by decide) (by decide)

/-- C5: refuted — with non-empty error arrays on all three envelopes the
cycle still succeeds and writes all five fixture gauges; the error array is
never inspected. -/
theorem C5_counterexample :
    generate (.ok errAP) (.ok errAssets) (fun _ => .ok errTickers) =
      (fixSamples, GenResult.ok) := by
  decide

/-- C5 (amended): `generate` never reads the `error` arrays of the decoded
envelopes — the cycle outcome and the written gauges are identical whatever
the error arrays hold. -/
theorem C5_error_ignored (e1 e2 e3 : List String)
    (apr : List (String × AssetPair)) (ar : List (String × Asset))
    (tr : List (String × Info)) :
    generate (.ok ⟨e1, apr⟩) (.ok ⟨e2, ar⟩) (fun _ => .ok ⟨e3, tr⟩) =
      generate (.ok ⟨[], apr⟩) (.ok ⟨[], ar⟩) (fun _ => .ok ⟨[], tr⟩) := rfl

/-- C6: `get` returns the body on 200, Unauthorized on 401, Forbidden on 403,
NotFound on 404, and Unknown on every other status. -/
theorem C6_get_status :
    (∀ body : String, State.get 200 body = .ok body) ∧
    (∀ body : String, State.get 401 body = .error .Unauthorized) ∧
    (∀ body : String, State.get 403 body = .error .Forbidden) ∧
    (∀ body : String, State.get 404 body = .error .NotFound) ∧
    (∀ (status : Nat) (body : String), status ≠ 200 → status ≠ 401 →
      status ≠ 403 → status ≠ 404 → State.get status body = .error .Unknown) := by
  refine ⟨fun _ => rfl, fun _ => rfl, fun _ => rfl, fun _ => rfl, ?_⟩
  intro status body h200 h401 h403 h404
  unfold State.get
  rw [if_neg h404, if_neg h403, if_neg h401, if_neg h200]

/-- C6 witness: the catch-all branch at status 500 and the success branch. -/
theorem C6_get_status_witness :
    State.get 500 "oops" = Except.error RestError.Unknown ∧
    State.get 200 "ok" = Except.ok "ok" :=
  ⟨C6_get_status.2.2.2.2 500 "oops" (by decide) (by decide) (by decide)
    (by decide), C6_get_status.1 "ok"⟩

/-- C7: refuted — two assets sharing altname `XBT` push the pair code
`XBTUSD` twice; the query list is not deduplicated and the duplicated
comma-join is what the ticker endpoint receives. -/
theorem C7_counterexample :
    buildQuery dupAssets dupAP = ["XBTUSD", "XBTUSD"] ∧
    ¬ (buildQuery dupAssets dupAP).Nodup ∧
    generate (.ok dupAP) (.ok dupAssets)
      (fun url =>
        if url = "https://api.kraken.com/0/public/Ticker?pair=XBTUSD,XBTUSD"
        then .ok ⟨[], []⟩ else .error .Unknown) = ([], GenResult.ok) := by
  decide

/-- C7 (amended): the query list holds exactly the candidate codes AR, XAXR,
XAZR (over assets and the fixed reference list) that are keys of
AssetPairs.result — but duplicates are kept, one occurrence per
asset-reference derivation, with no deduplication. -/
theorem C7_query_membership (assets : Assets) (asset_pairs : AssetPairs)
    (q : String) :
    q ∈ buildQuery assets asset_pairs ↔
      ∃ entry ∈ assets.result, ∃ r ∈ REFERENCE_CURRENCIES,
        q ∈ candidatePairs (Prod.snd entry).altname r ∧
        (List.lookup q asset_pairs.result).isSome := by
  simp [buildQuery, List.mem_flatMap, List.mem_filter]

/-- C8: a fetch or decode failure on either discovery endpoint aborts the
cycle with that error and writes no gauge at all. -/
theorem C8_discovery_abort :
    (∀ (e : RestError) (assetsR : Except RestError Assets)
        (tick : String → Except RestError Tickers),
      generate (.error e) assetsR tick = ([], GenResult.err e)) ∧
    (∀ (asset_pairs : AssetPairs) (e : RestError)
        (tick : String → Except RestError Tickers),
      generate (.ok asset_pairs) (.error e) tick = ([], GenResult.err e)) :=
  ⟨fun _ _ _ => rfl, fun _ _ _ => rfl⟩

/-- C9: refuted — a decodable AssetPairs entry with wsname "/USD" yields an
emitted gauge sample whose currency label is the empty string. -/
theorem C9_counterexample :
    (publishLoop slashAP.result slashTickers.result).1.head? =
      some ⟨"exchange_rate", Rat.divInt 300001 10,
        [("currency", ""), ("reference_currency", "USD"), ("pair", "/USD")]⟩ ∧
    (∃ s ∈ (publishLoop slashAP.result slashTickers.result).1,
      ("currency", "") ∈ s.labels) := by
  decide

/-- C9 (amended): provided every AssetPairs entry's wsname splits on `/` into
first two segments that are both non-empty, every emitted gauge sample's
three label values are non-empty. -/
theorem C9_labels_nonempty (apResult : List (String × AssetPair))
    (trs : List (String × Info))
    (hws : ∀ k pr, (k, pr) ∈ apResult →
      ∃ w0 w1 tl, splitSlash pr.wsname = w0 :: w1 :: tl ∧ w0 ≠ "" ∧ w1 ≠ "") :
    ∀ s ∈ (publishLoop apResult trs).1, ∀ lv ∈ s.labels, Prod.snd lv ≠ "" := by
  intro s hs lv hlv
  obtain ⟨a, i, _, hse⟩ := publishLoop_mem hs
  obtain ⟨ap, w0, w1, tl, hap, hsplit, hlab⟩ := publishEntry_labels hse
  obtain ⟨w0', w1', tl', hsplit', hw0, hw1⟩ := hws _ _ (lookup_mem hap)
  rw [hsplit] at hsplit'
  injection hsplit' with e0 hrest
  injection hrest with e1 _
  have hpair : ap.wsname ≠ "" := by
    intro he
    rw [he] at hsplit
    have hempty : splitSlash "" = [""] := by decide
    rw [hempty] at hsplit
    simp at hsplit
  rw [hlab] at hlv
  simp only [List.mem_cons, List.not_mem_nil, or_false] at hlv
  rcases hlv with rfl | rfl | rfl
  · simpa [e0] using hw0
  · simpa [e1] using hw1
  · simpa using hpair

/-- C9 witness: the currency label of the fixture's first emitted sample. -/
theorem C9_labels_nonempty_witness :
    Prod.snd (("currency", "XBT") : String × String) ≠ "" :=
  C9_labels_nonempty fixAP.result fixTickers.result
    (by
      intro k pr h
      simp only [fixAP, List.mem_singleton] at h
      obtain ⟨rfl, rfl⟩ := Prod.mk.injEq .. ▸ h
      exact ⟨"XBT", "USD", [], by decide, by decide, by decide⟩)
    ⟨"exchange_rate", Rat.divInt 300001 10, fixLabels⟩ (by decide)
    ("currency", "XBT") (by decide)

/-- C10: under the stated precondition (pair code resolvable, wsname contains
a slash, c non-empty, v, p, t of length ≥ 2, accessed strings parse) every
partial operation of the publishing loop succeeds and the entry emits its
five gauges; and the precondition is not implied by successful decoding — a
decodable entry whose v has length 1 still reaches a panicking branch. -/
theorem C10_publish_totality :
    (∀ (apResult : List (String × AssetPair)) (asset : String) (value : Info)
        (ap : AssetPair),
      List.lookup asset apResult = some ap →
      '/' ∈ ap.wsname.data →
      value.c ≠ [] →
      2 ≤ value.v.length → 2 ≤ value.p.length → 2 ≤ value.t.length →
      (value.c[0]?.bind parseF64).isSome →
      (value.v[1]?.bind parseF64).isSome →
      (value.p[0]?.bind parseF64).isSome →
      (value.p[1]?.bind parseF64).isSome →
      (publishEntry apResult asset value).2 = true ∧
      (publishEntry apResult asset value).1.length = 5) ∧
    (publishEntry fixAP.result "XXBTZUSD" shortInfo).2 = false := by
  constructor
  · intro apResult asset value ap hap hslash _ _ _ hlt hcP hvP hp0P hp1P
    have hlen : 2 ≤ (splitSlash ap.wsname).length := by
      have h2 := two_le_splitChar_length hslash
      simpa [splitSlash] using h2
    obtain ⟨w0, w1, tl, hsplit⟩ :
        ∃ w0 w1 tl, splitSlash ap.wsname = w0 :: w1 :: tl := by
      cases hls : splitSlash ap.wsname with
      | nil => rw [hls] at hlen; simp at hlen
      | cons x xs =>
        cases xs with
        | nil => rw [hls] at hlen; simp at hlen
        | cons y ys => exact ⟨x, y, ys, rfl⟩
    have h0 : (splitSlash ap.wsname)[0]? = some w0 := by rw [hsplit]; simp
    have h1 : (splitSlash ap.wsname)[1]? = some w1 := by rw [hsplit]; simp
    have ht : (value.t[1]? : Option Nat) = some value.t[1] :=
      List.getElem?_eq_getElem (by omega)
    obtain ⟨rate, hc⟩ := Option.isSome_iff_exists.mp hcP
    obtain ⟨vol, hv⟩ := Option.isSome_iff_exists.mp hvP
    obtain ⟨avg, hp0⟩ := Option.isSome_iff_exists.mp hp0P
    obtain ⟨avgLast, hp1⟩ := Option.isSome_iff_exists.mp hp1P
    refine ⟨?_, ?_⟩ <;>
      simp [publishEntry, hap, h0, h1, gaugeSources, hc, hv, hp0, hp1, ht,
        emitGauges]
  · decide

/-- C10 witness: the totality conclusion at the single-pair fixture. -/
theorem C10_publish_totality_witness :
    (publishEntry fixAP.result "XXBTZUSD" fixInfo).2 = true :=
  (C10_publish_totality.1 fixAP.result "XXBTZUSD" fixInfo fixAssetPair
    (by decide) (by decide) (by decide) (by decide) (by decide) (by decide)
    (by decide) (by decide) (by decide) (by decide)).1
